import Mathlib

/-!
Shallow embedding of the `geoplotting` and `io/sql` modules of the
`mazzma12/geopandas` fork, together with theorems settling the spec claims.

Conventions of the embedding:
 - a `GeoDataFrame` (Feature Set) is a `List Feature`; per-feature centroids,
   bounds and well-known-text renderings are delegated in the source to the
   external geometry library (shapely / GEOS), so they appear here as data
   fields of `Feature`;
 - Python floats are modelled as `ℚ` (all constants in the source are exact
   decimals);
 - fallible Python code (exceptions) is modelled with `Except`; the error
   names follow the spec taxonomy (`emptyInput` is the `ValueError` raised by
   builtin `max()` on an empty sequence, `invalidGroupKey` the `KeyError` of
   `DataFrame.groupby` on a missing column, `unboundLocal` Python's
   `UnboundLocalError`, `missingColumn` the `ValueError` of `read_postgis`).
-/

set_option autoImplicit false

namespace GeoSpec

/-- The closed set of geometry kinds dispatched on by the source
(`gdf.geom_type` string comparisons). -/
inductive GeomType where
  | point
  | lineString
  | polygon
  | multiPoint
  | multiLineString
  | multiPolygon
  | geometryCollection
deriving DecidableEq, Repr

/-- Axis-aligned bounds (min-lon, min-lat, max-lon, max-lat). -/
structure Bounds where
  minx : ℚ
  miny : ℚ
  maxx : ℚ
  maxy : ℚ
deriving DecidableEq, Repr

/-- One feature of a Feature Set: a geometry kind, the centroid `(x = lon,
y = lat)` and per-geometry bounds as computed by the external geometry
library, the well-known-text rendering (`shapely .wkt`), and the attribute
row (attribute name to integer value, e.g. a year column). -/
structure Feature where
  geomType : GeomType
  centroid : ℚ × ℚ
  bounds : Bounds
  wkt : String
  attrs : List (String × Int)
deriving DecidableEq, Repr

/-- Errors of the plotting pipeline (spec taxonomy). -/
inductive PlotError where
  | emptyInput
  | invalidGroupKey
  | unboundLocal
  | noneSubscript
deriving DecidableEq, Repr

/-- Errors of the persistence adapter (spec taxonomy). -/
inductive SqlError where
  | missingColumn
  | encodingError
  | badHandle
deriving DecidableEq, Repr

/-- Decidable equality of `Except` results, so that concrete runs of the
embedded functions can be checked by `decide`. -/
instance instDecEqExcept {ε α : Type} [DecidableEq ε] [DecidableEq α] :
    DecidableEq (Except ε α)
  | Except.ok x, Except.ok y =>
    if h : x = y then isTrue (by rw [h])
    else isFalse (by intro hc; cases hc; exact h rfl)
  | Except.error e, Except.error e' =>
    if h : e = e' then isTrue (by rw [h])
    else isFalse (by intro hc; cases hc; exact h rfl)
  | Except.ok _, Except.error _ => isFalse (by intro hc; cases hc)
  | Except.error _, Except.ok _ => isFalse (by intro hc; cases hc)

/-! ## Persistence adapter (src/geopandas/io/sql.py) -/

/-- Source `_geom_type_to_postgis` (io/sql.py lines 142-175): the chain of
`all(gdf.geom_type == '...')` checks, falling back to `'GEOMETRY'`. -/
def geom_type_to_postgis (gdf : List Feature) : String :=
  if gdf.all (fun f => f.geomType == GeomType.polygon) then "POLYGON"
  else if gdf.all (fun f => f.geomType == GeomType.multiPolygon) then "MULTIPOLYGON"
  else if gdf.all (fun f => f.geomType == GeomType.point) then "POINT"
  else if gdf.all (fun f => f.geomType == GeomType.lineString) then "LINESTRING"
  else if gdf.all (fun f => f.geomType == GeomType.multiPoint) then "MULTIPOINT"
  else if gdf.all (fun f => f.geomType == GeomType.geometryCollection) then "GEOMETRYCOLLECTION"
  else if gdf.all (fun f => f.geomType == GeomType.multiLineString) then "MULTILINESTRING"
  else "GEOMETRY"

/-- The exact uppercase PostGIS name of a geometry kind. -/
def postgisName : GeomType → String
  | GeomType.polygon => "POLYGON"
  | GeomType.multiPolygon => "MULTIPOLYGON"
  | GeomType.point => "POINT"
  | GeomType.lineString => "LINESTRING"
  | GeomType.multiPoint => "MULTIPOINT"
  | GeomType.geometryCollection => "GEOMETRYCOLLECTION"
  | GeomType.multiLineString => "MULTILINESTRING"

/-- A query result as returned by `pandas.read_sql`: named columns of
encoded cells (the geometry column holds WKB/hex strings). -/
structure SqlFrame where
  cols : List (String × List String)
deriving DecidableEq, Repr

/-- The column names of a query result (`geom_col not in df` checks these). -/
def SqlFrame.columns (df : SqlFrame) : List String :=
  df.cols.map Prod.fst

/-- The cells of a named column. -/
def SqlFrame.getColumn (df : SqlFrame) (c : String) : List String :=
  (df.cols.lookup c).getD []

/-- Decode every cell of the geometry column (`df[geom_col].apply(load_geom)`,
lines 51-57), failing if any cell fails to decode. -/
def decodeAll (decode : String → Option Feature) : List String → Option (List Feature)
  | [] => some []
  | x :: xs =>
    match decode x, decodeAll decode xs with
    | some f, some fs => some (f :: fs)
    | _, _ => none

/-- Source `read_postgis` (io/sql.py lines 45-67) after the external
`pandas.read_sql` call: the geometry-column presence check of lines 48-49,
then the per-cell decode (`shapely.wkb.loads`, modelled by the abstract
`decode` parameter; a decode failure is the external codec's
`EncodingError`).  CRS/SRID resolution is a further external call and is
not modelled. -/
def read_postgis (df : SqlFrame) (geom_col : String)
    (decode : String → Option Feature) : Except SqlError (List Feature) :=
  if geom_col ∉ df.columns then Except.error SqlError.missingColumn
  else
    match decodeAll decode (df.getColumn geom_col) with
    | some fs => Except.ok fs
    | none => Except.error SqlError.encodingError

/-- A `geoalchemy2.WKTElement`: a well-known-text string tagged with an
SRID. -/
structure WKTElement where
  wkt : String
  srid : Int
deriving DecidableEq, Repr

/-- One in-memory dataframe value: the geometry column (as shapely
geometries carried by `Feature`, whose `attrs` are the attribute columns),
plus `geomWkt`, which is `some` once the geometry column has been
overwritten with `WKTElement`s (the line-137 assignment). -/
structure FrameVal where
  geometry : List Feature
  geomWkt : Option (List WKTElement)
deriving DecidableEq, Repr

/-- Source `write_postgis` (io/sql.py lines 125-139).  Python dataframes are
heap values aliased by references, so the store of live dataframes is
modelled as a list indexed by handles: `df.copy()` allocates a fresh
frame at a fresh handle, and the in-place geometry-column assignment
updates the store at the handle it targets (here the copy's).  Returns
the final store, the frame handed to the external `to_sql`, and the
resolved PostGIS geometry type. -/
def write_postgis (σ : List FrameVal) (dfId : Nat) (srid : Int) :
    Except SqlError (List FrameVal × FrameVal × String) :=
  match σ.get? dfId with
  | none => Except.error SqlError.badHandle
  | some df =>
    let σ₁ := σ ++ [df]
    let tempId := σ.length
    let postgis_geom_type := geom_type_to_postgis df.geometry
    let wktCol := df.geometry.map fun f => ({ wkt := f.wkt, srid := srid } : WKTElement)
    let temp' : FrameVal := { df with geomWkt := some wktCol }
    let σ₂ := σ₁.set tempId temp'
    Except.ok (σ₂, temp', postgis_geom_type)

/-! ## Plotting module (src/geopandas/geoplotting.py) -/

/-- Python's binary `max` (kernel-computable; equal to Mathlib's `max` on
`ℚ`, see `qmax_eq_max`). -/
def qmax (a b : ℚ) : ℚ := if a < b then b else a

/-- Python's binary `min` (kernel-computable; equal to Mathlib's `min` on
`ℚ`, see `qmin_eq_min`). -/
def qmin (a b : ℚ) : ℚ := if b < a then b else a

/-- Builtin `max()` over a pandas series, which raises `ValueError` on an
empty sequence. -/
def seriesMax : List ℚ → Except PlotError ℚ
  | [] => Except.error PlotError.emptyInput
  | x :: xs => Except.ok (xs.foldl qmax x)

/-- Builtin `min()` over a pandas series, which raises `ValueError` on an
empty sequence. -/
def seriesMin : List ℚ → Except PlotError ℚ
  | [] => Except.error PlotError.emptyInput
  | x :: xs => Except.ok (xs.foldl qmin x)

/-- Source `get_auto_zoom` (geoplotting.py lines 30-36): spans of the per-feature
centroid latitudes and longitudes, `6.5 - ceil(max span)/10`, floored at
1.  `math.ceil` is the kernel-computable `Rat.ceil` (equal to Mathlib's
`Int.ceil`, see `rat_ceil_eq_ceil`). -/
def get_auto_zoom (gdf : List Feature) : Except PlotError ℚ := do
  let lats := gdf.map fun f => f.centroid.2
  let lons := gdf.map fun f => f.centroid.1
  let latMax ← seriesMax lats
  let latMin ← seriesMin lats
  let lonMax ← seriesMax lons
  let lonMin ← seriesMin lons
  let span := (6.5 : ℚ) - (Rat.ceil (qmax (latMax - latMin) (lonMax - lonMin)) : ℚ) / 10
  pure (if span < 1 then 1 else span)

/-- External `GeoDataFrame.total_bounds` (geopandas): the union of the
per-feature bounds; undefined on an empty frame. -/
def total_bounds : List Feature → Except PlotError Bounds
  | [] => Except.error PlotError.emptyInput
  | f :: fs =>
    Except.ok
      { minx := fs.foldl (fun a g => qmin a g.bounds.minx) f.bounds.minx
        miny := fs.foldl (fun a g => qmin a g.bounds.miny) f.bounds.miny
        maxx := fs.foldl (fun a g => qmax a g.bounds.maxx) f.bounds.maxx
        maxy := fs.foldl (fun a g => qmax a g.bounds.maxy) f.bounds.maxy }

/-- Source `get_auto_center` (geoplotting.py lines 164-169): the mean of
`total_bounds[::2]` (the two x entries) and of `total_bounds[1::2]` (the
two y entries), returned as `(lon, lat)`. -/
def get_auto_center (gdf : List Feature) : Except PlotError (ℚ × ℚ) := do
  let tb ← total_bounds gdf
  pure ((tb.minx + tb.maxx) / 2, (tb.miny + tb.maxy) / 2)

/-- One map overlay layer descriptor (geoplotting.py lines 190-205): the
default style with `color`/`opacity` overridden by the caller's kwargs,
and the single-feature `FeatureCollection` payload in `srcFeatures`. -/
structure Layer where
  sourcetype : String
  layerType : String
  color : String
  opacity : ℚ
  fillOutlinecolor : String
  srcFeatures : List Feature
deriving DecidableEq, Repr

/-- Source `gdf_to_plotly_layers` (geoplotting.py lines 172-206) as called from
`plot_markers_with_mapbox` line 92 (`opacity` and `color` kwargs override
the default layer): one layer per feature, each wrapping exactly that one
feature in a fresh `FeatureCollection`. -/
def gdf_to_plotly_layers (gdf : List Feature) (opacity : ℚ) (color : String) :
    List Layer :=
  gdf.map fun g =>
    { sourcetype := "geojson"
      layerType := "fill"
      color := color
      opacity := opacity
      fillOutlinecolor := "red"
      srcFeatures := [g] }

/-- One `go.Scattermapbox` trace (geoplotting.py lines 75-76). -/
structure Trace where
  lat : List ℚ
  lon : List ℚ
  mode : String
  color : String
  size : Option ℚ
  text : Option (List String)
deriving DecidableEq, Repr

/-- One animation frame (geoplotting.py line 144): the group figure's data
and the stringified group key as name. -/
structure Frame where
  data : List Trace
  name : String
deriving DecidableEq, Repr

/-- One slider step (geoplotting.py lines 145-150): `args` targets the
frame named by the stringified key, `label` is the same string. -/
structure SliderStep where
  label : String
  target : String
deriving DecidableEq, Repr

/-- A `go.Figure`: trace data, the mapbox layout (center, zoom, style,
layers), and—after `animate`—frames, slider steps and the play/pause
menus. -/
structure Fig where
  data : List Trace
  center : ℚ × ℚ
  zoom : ℚ
  style : String
  layers : List Layer
  frames : List Frame
  sliderSteps : List SliderStep
  hasMenus : Bool
deriving DecidableEq, Repr

/-- Python truthiness of the `text` argument (`if text:` line 67): `None`
and the empty list are falsy. -/
def truthyText : Option (List String) → Option (List String)
  | some (c :: cs) => some (c :: cs)
  | _ => none

/-- Python truthiness of the `animate_by` argument (`if animate_by:`
line 96): `None` and the empty string are falsy. -/
def truthyStr : Option String → Option String
  | some s => if s = "" then none else some s
  | none => none

/-- One hover-text string (geoplotting.py line 69): the row's values for
the chosen columns joined by an underscore.  (A column missing from the
row is a `KeyError` in Python; the claims never exercise that path, so a
missing attribute contributes the empty string here.) -/
def hoverJoin (cols : List String) (f : Feature) : String :=
  String.intercalate "_" (cols.map fun c => ((f.attrs.lookup c).map toString).getD "")

/-- Line 63-64: `center = get_auto_center(gdf) if center is None`. -/
def resolveCenter (gdf : List Feature) : Option (ℚ × ℚ) → Except PlotError (ℚ × ℚ)
  | some c => Except.ok c
  | none => get_auto_center gdf

/-- Line 65-66: `zoom = get_auto_zoom(gdf) if zoom is None`. -/
def resolveZoom (gdf : List Feature) : Option ℚ → Except PlotError ℚ
  | some z => Except.ok z
  | none => get_auto_zoom gdf

/-- The static figure value assembled by `plot_markers_with_mapbox`
lines 67-95 once center and zoom are resolved: the single marker trace
over all centroids, the mapbox layout, and one layer per non-Point
feature (`shape_gdf = gdf.loc[gdf.geom_type != 'Point']`, line 91). -/
def mkStaticFig (gdf : List Feature) (text : Option (List String)) (c : ℚ × ℚ)
    (z : ℚ) (size : Option ℚ) (mode color style : String) (op : ℚ) : Fig :=
  { data := [{ lat := gdf.map fun f => f.centroid.2
               lon := gdf.map fun f => f.centroid.1
               mode := mode
               color := color
               size := size
               text := (truthyText text).map fun cols => gdf.map (hoverJoin cols) }]
    center := c
    zoom := z
    style := style
    layers := gdf_to_plotly_layers (gdf.filter fun f => f.geomType != GeomType.point) op color
    frames := []
    sliderSteps := []
    hasMenus := false }

/-- Source `plot_markers_with_mapbox` lines 61-95: resolve center and zoom (auto
values on `None`), then assemble the static figure. -/
def build_static_fig (gdf : List Feature) (text : Option (List String))
    (center? : Option (ℚ × ℚ)) (zoom? : Option ℚ) (size : Option ℚ)
    (mode color style : String) (op : ℚ) : Except PlotError Fig := do
  let center ← resolveCenter gdf center?
  let zoom ← resolveZoom gdf zoom?
  pure (mkStaticFig gdf text center zoom size mode color style op)

/-- The keyword arguments `plot_markers_with_mapbox` forwards to `animate`
(line 97: `text`, `opacity`, `size`, `color`, `mode` — note `style` is not
forwarded, so each group figure is built with the default `'basic'`). -/
structure PlotKwargs where
  text : Option (List String) := none
  size : Option ℚ := none
  mode : String := "markers"
  color : String := "darkblue"
  opacity : ℚ := 1/2
deriving DecidableEq, Repr

/-- Ascending insertion into a sorted list of keys. -/
def insertSorted (x : Int) : List Int → List Int
  | [] => [x]
  | y :: ys => if x ≤ y then x :: y :: ys else y :: insertSorted x ys

/-- Ascending sort of group keys (`DataFrame.groupby` defaults to
`sort=True`, so groups are iterated in ascending key order). -/
def sortInts (l : List Int) : List Int := l.foldr insertSorted []

/-- The distinct values of the grouping column in the order
`DataFrame.groupby` iterates them: ascending sorted order. -/
def groupKeys (df : List Feature) (c : String) : List Int :=
  sortInts ((df.filterMap fun f => f.attrs.lookup c).dedup)

/-- The rows of one group, in their original order. -/
def groupOf (df : List Feature) (c : String) (k : Int) : List Feature :=
  df.filter fun f => f.attrs.lookup c == some k

/-- Line 138, `df.groupby(by, as_index=False)`, as iterated by the
`for (key, values) in grouped` loop: sorted keys, each with its rows. -/
def groupby (df : List Feature) (c : String) : List (Int × List Feature) :=
  (groupKeys df c).map fun k => (k, groupOf df c k)

/-- Line 142, `values.drop([by], 1)`: remove the grouping column from a row. -/
def dropCol (c : String) (f : Feature) : Feature :=
  { f with attrs := f.attrs.filter fun p => p.1 ≠ c }

/-- The `for ii, (key, values) in enumerate(grouped)` loop of `animate`
(lines 141-154), threading the frame list, the slider-step list and the
`fig` local (set from the first group figure when no figure was passed
in).  Each group is rendered through the registered `.iplot` accessor,
i.e. `plot_markers_with_mapbox(values.drop([by], 1), return_fig=True,
zoom=zoom, center=center, **kwargs)` with no `animate_by`. -/
def animateLoop (by_ : String) (kw : PlotKwargs) (c : ℚ × ℚ) (z : ℚ) :
    List (Int × List Feature) → List Frame → List SliderStep → Option Fig →
      Except PlotError (List Frame × List SliderStep × Option Fig)
  | [], frames, steps, figAcc => Except.ok (frames, steps, figAcc)
  | g :: rest, frames, steps, figAcc =>
    match build_static_fig (g.2.map (dropCol by_)) kw.text (some c) (some z)
        kw.size kw.mode kw.color "basic" kw.opacity with
    | Except.error e => Except.error e
    | Except.ok group_fig =>
      animateLoop by_ kw c z rest
        (frames ++ [{ data := group_fig.data, name := toString g.1 }])
        (steps ++ [{ label := toString g.1, target := toString g.1 }])
        (match figAcc with
         | none => some group_fig
         | some f => some f)

/-- Source `animate` (geoplotting.py lines 105-161): group by the key column
(line 138, `KeyError` when the column is missing from the schema), compute
zoom and center once over the whole ungrouped frame (line 140), run the
group loop, then attach frames, the slider and the play/pause menus to the
resulting figure (`fig['frames']` on a `None` fig would be a `TypeError`,
`noneSubscript`). -/
def animate (df : List Feature) (by_ : String) (fig0 : Option Fig)
    (kw : PlotKwargs) : Except PlotError Fig := do
  if df.all fun f => (f.attrs.lookup by_).isSome then
    let zoom ← get_auto_zoom df
    let center ← get_auto_center df
    let r ← animateLoop by_ kw center zoom (groupby df by_) [] [] fig0
    match r.2.2 with
    | some fig =>
      pure { fig with frames := r.1, sliderSteps := r.2.1, hasMenus := true }
    | none => Except.error PlotError.noneSubscript
  else Except.error PlotError.invalidGroupKey

/-- Source `plot_markers_with_mapbox` (geoplotting.py lines 39-102) with
`return_fig=True`: build the static figure, then—when `animate_by` is
truthy—call `animate` with `text=text_col`; `text_col` was only assigned
under `if text:` (line 67-68), so a falsy `text` makes that call site
raise `UnboundLocalError` (before `animate` runs). -/
def plot_markers_with_mapbox (gdf : List Feature) (text : Option (List String))
    (center? : Option (ℚ × ℚ)) (zoom? : Option ℚ) (size : Option ℚ)
    (mode color style : String) (op : ℚ) (animate_by : Option String) :
    Except PlotError Fig := do
  let fig ← build_static_fig gdf text center? zoom? size mode color style op
  match truthyStr animate_by with
  | some by_ =>
    match truthyText text with
    | some cols =>
      animate gdf by_ (some fig)
        { text := some cols, size := size, mode := mode, color := color, opacity := op }
    | none => Except.error PlotError.unboundLocal
  | none => pure fig

/-! ## Derived definitions used to state the claims -/

/-- The figure value held by the `fig` local of `animate` after the group
loop: the figure passed in, or else the first group's figure (the
`if ii == 0 and fig is None` initialisation), or `None` when there were no
groups. -/
def loopFig (by_ : String) (kw : PlotKwargs) (c : ℚ × ℚ) (z : ℚ) :
    Option Fig → List (Int × List Feature) → Option Fig
  | some f, _ => some f
  | none, [] => none
  | none, g :: _ =>
    some (mkStaticFig (g.2.map (dropCol by_)) kw.text c z kw.size kw.mode
      kw.color "basic" kw.opacity)

/-- The axis-aligned bounding box of the per-feature centroids (the box
`get_auto_zoom` actually spans). -/
def centroid_bounds : List Feature → Bounds
  | [] => ⟨0, 0, 0, 0⟩
  | f :: fs =>
    { minx := fs.foldl (fun a g => qmin a g.centroid.1) f.centroid.1
      miny := fs.foldl (fun a g => qmin a g.centroid.2) f.centroid.2
      maxx := fs.foldl (fun a g => qmax a g.centroid.1) f.centroid.1
      maxy := fs.foldl (fun a g => qmax a g.centroid.2) f.centroid.2 }

/-- Modelled from the spec (section 4.2, the refinement target of the
auto-zoom claim): `zoom(extent) -> Zoom` computes
`span = max(lat_range, lon_range)`, `z = 6.5 - ceil(span)/10`, and clamps
`z` to at least 1, as a pure function of an Extent. -/
def spec_zoom (ext : Bounds) : ℚ :=
  qmax 1 ((6.5 : ℚ) - (Rat.ceil (qmax (ext.maxy - ext.miny) (ext.maxx - ext.minx)) : ℚ) / 10)

/-! ## Concrete inputs used by witnesses and counterexamples -/

/-- The point `Point(0, 0)` with no attributes. -/
def ptA : Feature :=
  { geomType := GeomType.point, centroid := (0, 0), bounds := ⟨0, 0, 0, 0⟩
    wkt := "POINT (0 0)", attrs := [] }

/-- The point `Point(10, 10)` with no attributes. -/
def ptB : Feature :=
  { geomType := GeomType.point, centroid := (10, 10), bounds := ⟨10, 10, 10, 10⟩
    wkt := "POINT (10 10)", attrs := [] }

/-- The square polygon with corners `(0, 0)` and `(10, 10)`: its bounds
are the full square but its centroid is the single point `(5, 5)`. -/
def sq : Feature :=
  { geomType := GeomType.polygon, centroid := (5, 5), bounds := ⟨0, 0, 10, 10⟩
    wkt := "POLYGON ((0 0, 10 0, 10 10, 0 10, 0 0))", attrs := [] }

/-- A point feature with attribute `year = 2001`, appearing first. -/
def fY1 : Feature :=
  { geomType := GeomType.point, centroid := (0, 0), bounds := ⟨0, 0, 0, 0⟩
    wkt := "POINT (0 0)", attrs := [("year", 2001)] }

/-- A point feature with attribute `year = 2000`, appearing second. -/
def fY2 : Feature :=
  { geomType := GeomType.point, centroid := (1, 1), bounds := ⟨1, 1, 1, 1⟩
    wkt := "POINT (1 1)", attrs := [("year", 2000)] }

/-- First feature of the spec's `[2000, 2001, 2000]` grouping example. -/
def fS1 : Feature :=
  { geomType := GeomType.point, centroid := (0, 0), bounds := ⟨0, 0, 0, 0⟩
    wkt := "POINT (0 0)", attrs := [("year", 2000)] }

/-- Second feature of the spec's `[2000, 2001, 2000]` grouping example. -/
def fS2 : Feature :=
  { geomType := GeomType.point, centroid := (1, 0), bounds := ⟨1, 0, 1, 0⟩
    wkt := "POINT (1 0)", attrs := [("year", 2001)] }

/-- Third feature of the spec's `[2000, 2001, 2000]` grouping example. -/
def fS3 : Feature :=
  { geomType := GeomType.point, centroid := (0, 1), bounds := ⟨0, 1, 0, 1⟩
    wkt := "POINT (0 1)", attrs := [("year", 2000)] }

/-! ## Bridge lemmas: the kernel-computable primitives agree with the
standard Mathlib notions. -/

theorem qmax_eq_max (a b : ℚ) : qmax a b = max a b := by
  unfold qmax
  rcases lt_or_le a b with h | h
  · rw [if_pos h, max_eq_right h.le]
  · rw [if_neg (not_lt.mpr h), max_eq_left h]

theorem qmin_eq_min (a b : ℚ) : qmin a b = min a b := by
  unfold qmin
  rcases lt_or_le b a with h | h
  · rw [if_pos h, min_eq_right h.le]
  · rw [if_neg (not_lt.mpr h), min_eq_left h]

theorem rat_ceil_eq_ceil (q : ℚ) : Rat.ceil q = ⌈q⌉ := by
  unfold Rat.ceil
  split
  · rename_i h
    have hq : ((q.num : ℤ) : ℚ) = q := (Rat.den_eq_one_iff q).mp h
    calc q.num = ⌈((q.num : ℤ) : ℚ)⌉ := (Int.ceil_intCast q.num).symm
    _ = ⌈q⌉ := by rw [hq]
  · rename_i h
    have hfl : q.num / (q.den : ℤ) = ⌊q⌋ := Rat.floor_def.symm
    rw [hfl]
    have hne : ((⌊q⌋ : ℤ) : ℚ) ≠ q := by
      intro hc
      exact h (by rw [← hc, Rat.den_intCast])
    have h1 : ((⌊q⌋ : ℤ) : ℚ) < q := lt_of_le_of_ne (Int.floor_le q) hne
    have h2 : ((⌊q⌋ : ℤ) : ℚ) < ((⌈q⌉ : ℤ) : ℚ) := lt_of_lt_of_le h1 (Int.le_ceil q)
    have h3 : ⌊q⌋ < ⌈q⌉ := by exact_mod_cast h2
    have h4 := Int.ceil_le_floor_add_one q
    omega

theorem clamp_eq_qmax (s : ℚ) : (if s < 1 then 1 else s) = qmax 1 s := by
  unfold qmax
  by_cases h : s < 1
  · rw [if_pos h, if_neg (not_lt.mpr h.le)]
  · rw [if_neg h]
    by_cases h2 : 1 < s
    · rw [if_pos h2]
    · rw [if_neg h2]
      exact le_antisymm (not_lt.mp h2) (not_lt.mp h)

theorem except_bind_ok {ε α β : Type} (a : α) (f : α → Except ε β) :
    (Except.ok a : Except ε α) >>= f = f a := rfl

theorem except_bind_error {ε α β : Type} (e : ε) (f : α → Except ε β) :
    (Except.error e : Except ε α) >>= f = Except.error e := rfl

theorem except_pure_eq {ε α : Type} (a : α) :
    (pure a : Except ε α) = Except.ok a := rfl

theorem build_static_fig_some (gdf : List Feature) (text : Option (List String))
    (c : ℚ × ℚ) (z : ℚ) (size : Option ℚ) (mode color style : String) (op : ℚ) :
    build_static_fig gdf text (some c) (some z) size mode color style op =
      Except.ok (mkStaticFig gdf text c z size mode color style op) := rfl

theorem build_static_fig_ok (gdf : List Feature) (text : Option (List String))
    (center? : Option (ℚ × ℚ)) (zoom? : Option ℚ) (size : Option ℚ)
    (mode color style : String) (op : ℚ) (hne : gdf ≠ []) :
    ∃ fig, build_static_fig gdf text center? zoom? size mode color style op =
      Except.ok fig := by
  obtain ⟨f, fs, rfl⟩ := List.exists_cons_of_ne_nil hne
  cases center? <;> cases zoom? <;> exact ⟨_, rfl⟩

/-! ## Claim theorems -/

section ClaimProofs

attribute [local semireducible] Rat.add Rat.sub Rat.mul Rat.inv Rat.ofScientific

/-- C2, amended: for every non-empty Feature Set the auto zoom equals the
spec's zoom formula applied to the bounding box of the per-feature
CENTROIDS (not to the Extent of the geometries): it is a pure function of
the centroid bounding box. -/
theorem C2_zoom_of_centroid_box (gdf : List Feature) (h : gdf ≠ []) :
    get_auto_zoom gdf = Except.ok (spec_zoom (centroid_bounds gdf)) := by
  obtain ⟨f, fs, rfl⟩ := List.exists_cons_of_ne_nil h
  simp only [get_auto_zoom, List.map_cons, seriesMax, seriesMin, except_bind_ok,
    except_pure_eq, spec_zoom, centroid_bounds, List.foldl_map, clamp_eq_qmax]

/-- C2 witness: the amended theorem at the spec's own two-point example,
where the zoom is `5.5`. -/
theorem C2_zoom_of_centroid_box_witness :
    (([ptA, ptB] : List Feature) ≠ [])
  ∧ get_auto_zoom [ptA, ptB] = Except.ok (spec_zoom (centroid_bounds [ptA, ptB]))
  ∧ spec_zoom (centroid_bounds [ptA, ptB]) = 11/2 :=
  ⟨by decide, C2_zoom_of_centroid_box [ptA, ptB] (by decide), by decide⟩

/-- C2 counterexample: the singleton square polygon and the two-point set
have the same Extent `(0, 0, 10, 10)`, yet the code's auto zoom is `6.5`
for the former and `5.5` for the latter — the zoom is not a function of
the Extent, and on the square it differs from the claimed
`6.5 - ceil(max span)/10 = 5.5`. -/
theorem C2_counterexample :
    total_bounds [sq] = total_bounds [ptA, ptB]
  ∧ total_bounds [sq] = Except.ok ⟨0, 0, 10, 10⟩
  ∧ spec_zoom ⟨0, 0, 10, 10⟩ = 11/2
  ∧ get_auto_zoom [ptA, ptB] = Except.ok (11/2)
  ∧ get_auto_zoom [sq] = Except.ok (13/2)
  ∧ ((13 : ℚ)/2 ≠ 11/2) := by
  refine ⟨by decide, by decide, by decide, by decide, by decide, by decide⟩

/-- C3: on the empty Feature Set the auto-framing step fails with the
empty-input error, and both the Scene Assembler
(`plot_markers_with_mapbox` with auto center/zoom) and the Animation
Sequencer (`animate`) return exactly that error, producing no figure and
no frames. -/
theorem C3_empty_input_propagates (text : Option (List String)) (size : Option ℚ)
    (mode color style : String) (op : ℚ) (ab : Option String) (by_ : String)
    (fig0 : Option Fig) (kw : PlotKwargs) :
    get_auto_zoom [] = Except.error PlotError.emptyInput
  ∧ get_auto_center [] = Except.error PlotError.emptyInput
  ∧ plot_markers_with_mapbox [] text none none size mode color style op ab
      = Except.error PlotError.emptyInput
  ∧ animate [] by_ fig0 kw = Except.error PlotError.emptyInput :=
  ⟨rfl, rfl, rfl, rfl⟩

/-- C7: reading a query result fails with the missing-column error exactly
when the named geometry column is absent; when the column is present the
read never produces that error (decoding then begins, and can only fail
with the codec's encoding error). -/
theorem C7_missing_column_iff (df : SqlFrame) (c : String)
    (decode : String → Option Feature) :
    (read_postgis df c decode = Except.error SqlError.missingColumn ↔ c ∉ df.columns)
  ∧ (read_postgis df c decode ≠ Except.error SqlError.missingColumn ↔ c ∈ df.columns) := by
  by_cases hm : c ∈ df.columns
  · cases hmm : decodeAll decode (df.getColumn c) with
    | none => simp [read_postgis, hm, hmm]
    | some fs => simp [read_postgis, hm, hmm]
  · simp [read_postgis, hm]

/-- C9: on the empty Feature Set the geometry-kind resolution returns the
specific type `'POLYGON'` (the first vacuous homogeneity check), not the
generic `'GEOMETRY'` and not an error. -/
theorem C9_empty_resolves_polygon :
    geom_type_to_postgis [] = "POLYGON"
  ∧ geom_type_to_postgis [] ≠ "GEOMETRY"
  ∧ (write_postgis [⟨[], none⟩] 0 4326).map (fun r => r.2.2) = Except.ok "POLYGON" := by
  refine ⟨by decide, by decide, by decide⟩

/-- C5: the Layer Builder, as invoked by the Scene Assembler on the
non-Point subset, never errors, emits exactly one descriptor per
non-Point feature (none at all for an all-Point or empty set), wraps
exactly that one feature in each descriptor's single-feature payload, and
emits no descriptor holding a Point feature. -/
theorem C5_layer_builder (gdf : List Feature) (text : Option (List String))
    (c : ℚ × ℚ) (z : ℚ) (size : Option ℚ) (mode color style : String) (op : ℚ) :
    build_static_fig gdf text (some c) (some z) size mode color style op =
      Except.ok (mkStaticFig gdf text c z size mode color style op)
  ∧ (mkStaticFig gdf text c z size mode color style op).layers.length
      = (gdf.filter fun f => f.geomType != GeomType.point).length
  ∧ (mkStaticFig gdf text c z size mode color style op).layers.map Layer.srcFeatures
      = (gdf.filter fun f => f.geomType != GeomType.point).map (fun g => [g])
  ∧ ((mkStaticFig gdf text c z size mode color style op).layers.all
      fun l => l.srcFeatures.all fun f => f.geomType != GeomType.point) = true
  ∧ gdf_to_plotly_layers [] op color = [] := by
  refine ⟨rfl, ?_, ?_, ?_, rfl⟩
  · simp [mkStaticFig, gdf_to_plotly_layers]
  · simp [mkStaticFig, gdf_to_plotly_layers]
  · simp only [mkStaticFig, gdf_to_plotly_layers, List.all_eq_true]
    intro l hl
    obtain ⟨g, hg, rfl⟩ := List.mem_map.mp hl
    simpa using (List.mem_filter.mp hg).2

/-- C6: the resolved PostGIS type of a non-empty Feature Set whose
features all share one geometry kind `k` is exactly the uppercase name of
`k`; when two features have different kinds, the resolution falls back to
the generic `'GEOMETRY'`. -/
theorem C6_postgis_type (gdf : List Feature) (k : GeomType) (hne : gdf ≠ []) :
    ((∀ f ∈ gdf, f.geomType = k) → geom_type_to_postgis gdf = postgisName k)
  ∧ (∀ f ∈ gdf, ∀ g ∈ gdf, f.geomType ≠ g.geomType →
      geom_type_to_postgis gdf = "GEOMETRY") := by
  constructor
  · intro hk
    obtain ⟨f0, fs0, rfl⟩ := List.exists_cons_of_ne_nil hne
    have hhead : f0.geomType = k := hk f0 (List.mem_cons_self f0 fs0)
    have htrue : ((f0 :: fs0).all fun f => f.geomType == k) = true := by
      rw [List.all_eq_true]
      intro f hf
      simp [hk f hf]
    have hall : ∀ k', k' ≠ k → (((f0 :: fs0).all fun f => f.geomType == k') = false) := by
      intro k' hk'
      refine Bool.eq_false_iff.mpr fun hc => ?_
      rw [List.all_eq_true] at hc
      have := hc f0 (List.mem_cons_self f0 fs0)
      rw [hhead] at this
      exact hk' (beq_iff_eq.mp this).symm
    cases k with
    | point =>
      simp [geom_type_to_postgis, htrue, postgisName,
        hall GeomType.polygon (by decide), hall GeomType.multiPolygon (by decide)]
    | lineString =>
      simp [geom_type_to_postgis, htrue, postgisName,
        hall GeomType.polygon (by decide), hall GeomType.multiPolygon (by decide),
        hall GeomType.point (by decide)]
    | polygon => simp [geom_type_to_postgis, htrue, postgisName]
    | multiPoint =>
      simp [geom_type_to_postgis, htrue, postgisName,
        hall GeomType.polygon (by decide), hall GeomType.multiPolygon (by decide),
        hall GeomType.point (by decide), hall GeomType.lineString (by decide)]
    | multiLineString =>
      simp [geom_type_to_postgis, htrue, postgisName,
        hall GeomType.polygon (by decide), hall GeomType.multiPolygon (by decide),
        hall GeomType.point (by decide), hall GeomType.lineString (by decide),
        hall GeomType.multiPoint (by decide), hall GeomType.geometryCollection (by decide)]
    | multiPolygon =>
      simp [geom_type_to_postgis, htrue, postgisName, hall GeomType.polygon (by decide)]
    | geometryCollection =>
      simp [geom_type_to_postgis, htrue, postgisName,
        hall GeomType.polygon (by decide), hall GeomType.multiPolygon (by decide),
        hall GeomType.point (by decide), hall GeomType.lineString (by decide),
        hall GeomType.multiPoint (by decide)]
  · intro f hf g hg hfg
    have hall2 : ∀ k', ((gdf.all fun x => x.geomType == k') = false) := by
      intro k'
      refine Bool.eq_false_iff.mpr fun hc => ?_
      rw [List.all_eq_true] at hc
      have h1 := beq_iff_eq.mp (hc f hf)
      have h2 := beq_iff_eq.mp (hc g hg)
      exact hfg (h1.trans h2.symm)
    simp [geom_type_to_postgis, hall2]

/-- C6 witness: the singleton square polygon resolves to `'POLYGON'`. -/
theorem C6_postgis_type_witness :
    (([sq] : List Feature) ≠ [])
  ∧ (((∀ f ∈ ([sq] : List Feature), f.geomType = GeomType.polygon) →
        geom_type_to_postgis [sq] = postgisName GeomType.polygon)
  ∧ (∀ f ∈ ([sq] : List Feature), ∀ g ∈ ([sq] : List Feature),
        f.geomType ≠ g.geomType → geom_type_to_postgis [sq] = "GEOMETRY")) :=
  ⟨by decide, C6_postgis_type [sq] GeomType.polygon (by decide)⟩

/-- C8: `write_postgis` never mutates the caller's frame — after the call
the store still maps the caller's handle to exactly the frame it held
before (geometry column and attribute columns unchanged); only the
private copy receives the WKT-element column. -/
theorem C8_write_no_mutation (σ : List FrameVal) (dfId : Nat) (srid : Int)
    (h : dfId < σ.length) :
    ∃ σ' sent ty, write_postgis σ dfId srid = Except.ok (σ', sent, ty)
      ∧ σ'.get? dfId = σ.get? dfId := by
  have hg : σ.get? dfId = some (σ.get ⟨dfId, h⟩) := List.get?_eq_get h
  refine ⟨((σ ++ [σ.get ⟨dfId, h⟩]).set σ.length
      { σ.get ⟨dfId, h⟩ with geomWkt := some ((σ.get ⟨dfId, h⟩).geometry.map
          fun f => ({ wkt := f.wkt, srid := srid } : WKTElement)) }),
    ({ σ.get ⟨dfId, h⟩ with geomWkt := some ((σ.get ⟨dfId, h⟩).geometry.map
          fun f => ({ wkt := f.wkt, srid := srid } : WKTElement)) }),
    geom_type_to_postgis (σ.get ⟨dfId, h⟩).geometry, ?_, ?_⟩
  · unfold write_postgis
    rw [hg]
  · rw [List.get?_set_ne _ _ (by omega)]
    exact List.get?_append h

/-- C8 witness: a one-frame store, handle `0`, SRID `4326`. -/
theorem C8_write_no_mutation_witness :
    (0 < ([⟨[ptA], none⟩] : List FrameVal).length)
  ∧ ∃ σ' sent ty, write_postgis [⟨[ptA], none⟩] 0 4326 = Except.ok (σ', sent, ty)
      ∧ σ'.get? 0 = ([⟨[ptA], none⟩] : List FrameVal).get? 0 :=
  ⟨by decide, C8_write_no_mutation [⟨[ptA], none⟩] 0 4326 (by decide)⟩

theorem mem_insertSorted (x a : Int) (l : List Int) :
    a ∈ insertSorted x l ↔ a = x ∨ a ∈ l := by
  induction l with
  | nil => simp [insertSorted]
  | cons y ys ih =>
    unfold insertSorted
    by_cases h : x ≤ y
    · simp [h]
    · simp only [h, if_false, List.mem_cons, ih]
      tauto

theorem mem_sortInts (a : Int) (l : List Int) : a ∈ sortInts l ↔ a ∈ l := by
  unfold sortInts
  induction l with
  | nil => simp
  | cons x xs ih => simp [mem_insertSorted, ih]

theorem groupby_ne_nil (df : List Feature) (by_ : String)
    (hk : (df.all fun f => (f.attrs.lookup by_).isSome) = true) (hne : df ≠ []) :
    groupby df by_ ≠ [] := by
  obtain ⟨f0, fs0, rfl⟩ := List.exists_cons_of_ne_nil hne
  rw [List.all_eq_true] at hk
  obtain ⟨k0, hk0⟩ := Option.isSome_iff_exists.mp (hk f0 (List.mem_cons_self f0 fs0))
  have hmem : k0 ∈ groupKeys (f0 :: fs0) by_ := by
    unfold groupKeys
    rw [mem_sortInts, List.mem_dedup, List.mem_filterMap]
    exact ⟨f0, List.mem_cons_self f0 fs0, hk0⟩
  unfold groupby
  simp only [ne_eq, List.map_eq_nil]
  exact List.ne_nil_of_mem hmem

theorem animateLoop_spec (by_ : String) (kw : PlotKwargs) (c : ℚ × ℚ) (z : ℚ)
    (groups : List (Int × List Feature)) :
    ∀ (frames : List Frame) (steps : List SliderStep) (figAcc : Option Fig),
      animateLoop by_ kw c z groups frames steps figAcc =
        Except.ok
          (frames ++ groups.map (fun g =>
            { data := (mkStaticFig (g.2.map (dropCol by_)) kw.text c z kw.size
                kw.mode kw.color "basic" kw.opacity).data
              name := toString g.1 }),
           steps ++ groups.map (fun g => { label := toString g.1, target := toString g.1 }),
           loopFig by_ kw c z figAcc groups) := by
  induction groups with
  | nil =>
    intro frames steps figAcc
    cases figAcc <;> simp [animateLoop, loopFig]
  | cons g rest ih =>
    intro frames steps figAcc
    cases figAcc with
    | none =>
      simp only [animateLoop, build_static_fig_some, ih, loopFig, List.map_cons,
        List.append_assoc, List.singleton_append]
    | some f =>
      simp only [animateLoop, build_static_fig_some, ih, loopFig, List.map_cons,
        List.append_assoc, List.singleton_append]

theorem get_auto_zoom_of_ne_nil (gdf : List Feature) (h : gdf ≠ []) :
    ∃ z, get_auto_zoom gdf = Except.ok z := by
  obtain ⟨f, fs, rfl⟩ := List.exists_cons_of_ne_nil h
  exact ⟨_, rfl⟩

theorem get_auto_center_of_ne_nil (gdf : List Feature) (h : gdf ≠ []) :
    ∃ c, get_auto_center gdf = Except.ok c := by
  obtain ⟨f, fs, rfl⟩ := List.exists_cons_of_ne_nil h
  exact ⟨_, rfl⟩

theorem animate_ok (df : List Feature) (by_ : String) (fig0 : Option Fig)
    (kw : PlotKwargs)
    (hk : (df.all fun f => (f.attrs.lookup by_).isSome) = true) (hne : df ≠ []) :
    ∃ z c fig, get_auto_zoom df = Except.ok z ∧ get_auto_center df = Except.ok c ∧
      animate df by_ fig0 kw = Except.ok fig ∧
      fig.frames = (groupby df by_).map (fun g =>
        { data := (mkStaticFig (g.2.map (dropCol by_)) kw.text c z kw.size
            kw.mode kw.color "basic" kw.opacity).data
          name := toString g.1 }) ∧
      fig.sliderSteps = (groupby df by_).map (fun g =>
        { label := toString g.1, target := toString g.1 }) := by
  obtain ⟨z, hz⟩ := get_auto_zoom_of_ne_nil df hne
  obtain ⟨c, hc⟩ := get_auto_center_of_ne_nil df hne
  obtain ⟨g0, gs, hgroups⟩ :=
    List.exists_cons_of_ne_nil (groupby_ne_nil df by_ hk hne)
  refine ⟨z, c, ?_⟩
  simp only [animate, hk, eq_self_iff_true, if_true, hz, except_bind_ok, hc,
    animateLoop_spec, hgroups]
  cases fig0 with
  | none => exact ⟨_, trivial, trivial, rfl, rfl, rfl⟩
  | some f => exact ⟨_, trivial, trivial, rfl, rfl, rfl⟩

/-- C1, amended: the Animation Sequencer produces its groups — and hence
its Frames and slider steps — in ASCENDING SORTED order of the distinct
grouping-key values (`DataFrame.groupby` defaults to `sort=True`), not in
first-encountered order; the two orders coincide on the spec's
`[2000, 2001, 2000]` example. -/
theorem C1_frames_sorted_keys (df : List Feature) (by_ : String) (fig0 : Option Fig)
    (kw : PlotKwargs)
    (hk : (df.all fun f => (f.attrs.lookup by_).isSome) = true) (hne : df ≠ []) :
    ∃ fig, animate df by_ fig0 kw = Except.ok fig ∧
      fig.frames.map Frame.name =
        (sortInts ((df.filterMap fun f => f.attrs.lookup by_).dedup)).map toString ∧
      fig.sliderSteps.map SliderStep.label =
        (sortInts ((df.filterMap fun f => f.attrs.lookup by_).dedup)).map toString := by
  obtain ⟨z, c, fig, _, _, ha, hf, hs⟩ := animate_ok df by_ fig0 kw hk hne
  refine ⟨fig, ha, ?_, ?_⟩
  · rw [hf]
    simp [groupby, groupKeys, List.map_map, Function.comp]
  · rw [hs]
    simp [groupby, groupKeys, List.map_map, Function.comp]

/-- C1 witness: the spec's own example, key values `[2000, 2001, 2000]`,
yields two frames named `2000`, `2001` and matching slider steps. -/
theorem C1_frames_sorted_keys_witness :
    ((([fS1, fS2, fS3] : List Feature).all fun f => (f.attrs.lookup "year").isSome) = true)
  ∧ (([fS1, fS2, fS3] : List Feature) ≠ [])
  ∧ ∃ fig, animate [fS1, fS2, fS3] "year" none {} = Except.ok fig ∧
      fig.frames.map Frame.name =
        (sortInts (([fS1, fS2, fS3].filterMap fun f => f.attrs.lookup "year").dedup)).map toString ∧
      fig.sliderSteps.map SliderStep.label =
        (sortInts (([fS1, fS2, fS3].filterMap fun f => f.attrs.lookup "year").dedup)).map toString :=
  ⟨by decide, by decide, C1_frames_sorted_keys [fS1, fS2, fS3] "year" none {} (by decide) (by decide)⟩

/-- C1 counterexample: with key values encountered in order
`[2001, 2000]`, the code emits the frames in sorted order
`["2000", "2001"]`, not in the first-encountered order `["2001", "2000"]`
the claim requires. -/
theorem C1_counterexample :
    (animate [fY1, fY2] "year" none {}).map (fun fig => fig.frames.map Frame.name)
      = Except.ok ["2000", "2001"]
  ∧ ([fY1, fY2].filterMap fun f => f.attrs.lookup "year").dedup = [2001, 2000]
  ∧ (["2000", "2001"] ≠ ["2001", "2000"]) :=
  ⟨by decide, by decide, by decide⟩

/-- C4: `animate` computes Center and Zoom once over the whole ungrouped
Feature Set, every per-group Scene is built with exactly those two values
(so the camera is identical across all Frames), the number of slider
steps equals the number of Frames, and the step labels equal the frame
names in order. -/
theorem C4_shared_camera (df : List Feature) (by_ : String) (fig0 : Option Fig)
    (kw : PlotKwargs)
    (hk : (df.all fun f => (f.attrs.lookup by_).isSome) = true) (hne : df ≠ []) :
    ∃ z c fig, get_auto_zoom df = Except.ok z ∧ get_auto_center df = Except.ok c ∧
      animate df by_ fig0 kw = Except.ok fig ∧
      (∀ g ∈ groupby df by_,
        build_static_fig (g.2.map (dropCol by_)) kw.text (some c) (some z)
            kw.size kw.mode kw.color "basic" kw.opacity =
          Except.ok (mkStaticFig (g.2.map (dropCol by_)) kw.text c z kw.size
            kw.mode kw.color "basic" kw.opacity)
        ∧ (mkStaticFig (g.2.map (dropCol by_)) kw.text c z kw.size
            kw.mode kw.color "basic" kw.opacity).center = c
        ∧ (mkStaticFig (g.2.map (dropCol by_)) kw.text c z kw.size
            kw.mode kw.color "basic" kw.opacity).zoom = z)
      ∧ fig.frames = (groupby df by_).map (fun g =>
          { data := (mkStaticFig (g.2.map (dropCol by_)) kw.text c z kw.size
              kw.mode kw.color "basic" kw.opacity).data
            name := toString g.1 })
      ∧ fig.sliderSteps.length = fig.frames.length
      ∧ fig.sliderSteps.map SliderStep.label = fig.frames.map Frame.name := by
  obtain ⟨z, c, fig, hz, hc, ha, hf, hs⟩ := animate_ok df by_ fig0 kw hk hne
  refine ⟨z, c, fig, hz, hc, ha, ?_, hf, ?_, ?_⟩
  · intro g _
    exact ⟨build_static_fig_some _ _ _ _ _ _ _ _ _, rfl, rfl⟩
  · rw [hf, hs]
    simp
  · rw [hf, hs]
    simp [List.map_map, Function.comp]

/-- C4 witness: the `[2000, 2001, 2000]` example, camera computed once
over the three features and shared by both group scenes. -/
theorem C4_shared_camera_witness :
    ((([fS1, fS2, fS3] : List Feature).all fun f => (f.attrs.lookup "year").isSome) = true)
  ∧ (([fS1, fS2, fS3] : List Feature) ≠ [])
  ∧ ∃ z c fig, get_auto_zoom [fS1, fS2, fS3] = Except.ok z
      ∧ get_auto_center [fS1, fS2, fS3] = Except.ok c
      ∧ animate [fS1, fS2, fS3] "year" none {} = Except.ok fig
      ∧ (∀ g ∈ groupby [fS1, fS2, fS3] "year",
          build_static_fig (g.2.map (dropCol "year")) none (some c) (some z)
              none "markers" "darkblue" "basic" (1/2) =
            Except.ok (mkStaticFig (g.2.map (dropCol "year")) none c z none
              "markers" "darkblue" "basic" (1/2))
          ∧ (mkStaticFig (g.2.map (dropCol "year")) none c z none
              "markers" "darkblue" "basic" (1/2)).center = c
          ∧ (mkStaticFig (g.2.map (dropCol "year")) none c z none
              "markers" "darkblue" "basic" (1/2)).zoom = z)
      ∧ fig.frames = (groupby [fS1, fS2, fS3] "year").map (fun g =>
          { data := (mkStaticFig (g.2.map (dropCol "year")) none c z none
              "markers" "darkblue" "basic" (1/2)).data
            name := toString g.1 })
      ∧ fig.sliderSteps.length = fig.frames.length
      ∧ fig.sliderSteps.map SliderStep.label = fig.frames.map Frame.name :=
  ⟨by decide, by decide,
    C4_shared_camera [fS1, fS2, fS3] "year" none {} (by decide) (by decide)⟩

/-- C10, amended: for every NON-EMPTY Feature Set (the empty set with auto
framing fails earlier, with the empty-input error), calling the render
entry point with a (non-empty) animation grouping key but no hover-text
column list raises the unbound-local error at the `animate` call site —
before any frame is built — because `text_col` is only assigned under
`if text:`. -/
theorem C10_unbound_text_col (gdf : List Feature) (center? : Option (ℚ × ℚ))
    (zoom? : Option ℚ) (size : Option ℚ) (mode color style : String) (op : ℚ)
    (by_ : String) (hne : gdf ≠ []) (hb : by_ ≠ "") :
    plot_markers_with_mapbox gdf none center? zoom? size mode color style op (some by_)
      = Except.error PlotError.unboundLocal := by
  obtain ⟨fig, hfig⟩ :=
    build_static_fig_ok gdf none center? zoom? size mode color style op hne
  simp [plot_markers_with_mapbox, hfig, except_bind_ok, truthyStr, hb, truthyText]

/-- C10 witness: a one-point set, grouping key `"year"`, no text columns. -/
theorem C10_unbound_text_col_witness :
    (([ptA] : List Feature) ≠ []) ∧ ("year" ≠ "")
  ∧ plot_markers_with_mapbox [ptA] none none none none "markers" "darkblue"
      "basic" (1/2) (some "year") = Except.error PlotError.unboundLocal :=
  ⟨by decide, by decide,
    C10_unbound_text_col [ptA] none none none "markers" "darkblue" "basic" (1/2)
      "year" (by decide) (by decide)⟩

/-- C10 counterexample to the universal claim: on the EMPTY Feature Set
(with the default auto center/zoom) the call fails with the empty-input
error raised by auto-framing, not with the unbound-name error. -/
theorem C10_counterexample :
    plot_markers_with_mapbox [] none none none none "markers" "darkblue"
      "basic" (1/2) (some "year") = Except.error PlotError.emptyInput
  ∧ (Except.error PlotError.emptyInput
      ≠ (Except.error PlotError.unboundLocal : Except PlotError Fig)) :=
  ⟨rfl, by decide⟩

end ClaimProofs

end GeoSpec
